import Mathlib

/-!
Verification of the KYC risk-assessment rule evaluator
(`src/plugins/kyc_risk_plugin.py` of the sk-demo repository).

The four plugin operations are pure string functions; they are embedded
here verbatim.  Python's substring test `needle in hay` is modelled as
list-infix on the character lists, `str.lower()` as ASCII lowercasing
(every trigger keyword in the code is plain ASCII), and Python list
membership as list membership.  The `RiskStatus` abstraction (a severity
level plus a message) comes from the specification's data model; the code
encodes the severity in a leading emoji marker of the status string.
-/

namespace SKDemo

/-- Severity levels of the spec's `RiskStatus` data model. -/
inductive Severity : Type where
  | OK : Severity
  | WARNING : Severity
  | REJECT : Severity
  deriving DecidableEq

/-- The spec's total severity order OK < WARNING < REJECT, as a rank. -/
def Severity.rank : Severity → Nat
  | .OK => 0
  | .WARNING => 1
  | .REJECT => 2

/-- Maximum of two severities under the rank order. -/
def Severity.max (s t : Severity) : Severity :=
  if s.rank ≤ t.rank then t else s

/-- One-character model of Python's `str.lower`, faithful on every
codepoint that can affect the plugin's keyword scans: ASCII uppercase maps
to ASCII lowercase, and U+212A KELVIN SIGN maps to 'k' — the one
non-ASCII codepoint whose Unicode lowercase is a letter of the keywords
"forged", "bot-like", "unusual".  All other codepoints are fixed, which
is extensionally faithful for those scans: no other codepoint lowercases
into their alphabet (U+0130 expands to 'i' followed by U+0307, a pair
that can complete none of the keywords), so the Boolean outcome of each
substring test agrees with CPython on every input string. -/
def pyLower (c : Char) : Char :=
  if 'A' ≤ c ∧ c ≤ 'Z' then Char.ofNat (c.toNat + 32)
  else if c = 'K' then 'k'
  else c

/-- `lower s` embeds Python's `s.lower()`. -/
def lower (s : String) : String :=
  ⟨s.data.map pyLower⟩

/-- `contains needle hay` embeds Python's substring test `needle in hay`. -/
def contains (needle hay : String) : Bool :=
  decide (needle.data <:+: hay.data)

/-- `validate_id_document` from `kyc_risk_plugin.py`:
rejects documents whose lowercased text has "forged" as a substring. -/
def validate_id_document (document_text : String) : String :=
  if contains "forged" (lower document_text) then
    "❌ Document invalid: suspected forgery."
  else
    "✅ Document valid."

/-- The sanctions watchlist literal from `screen_against_sanctions`. -/
def watchlist : List String := ["John Doe", "Ali Khan"]

/-- `screen_against_sanctions` from `kyc_risk_plugin.py`:
exact membership test of the full name against the watchlist. -/
def screen_against_sanctions (full_name : String) : String :=
  if full_name ∈ watchlist then
    "❌ " ++ full_name ++ " flagged on sanctions list."
  else
    "✅ " ++ full_name ++ " is clear."

/-- `assess_behavioral_risk` from `kyc_risk_plugin.py`:
warns when the lowercased text has "bot-like" or "unusual" as a substring. -/
def assess_behavioral_risk (behavior_data : String) : String :=
  if contains "bot-like" (lower behavior_data) || contains "unusual" (lower behavior_data) then
    "⚠️ Behavioral risk detected."
  else
    "✅ Behavior appears normal."

/-- `combine_risk_signals` from `kyc_risk_plugin.py`:
escalates when any of the three status strings contains "❌" or "⚠️". -/
def combine_risk_signals (id_status sanctions_status behavior_status : String) : String :=
  if [id_status, sanctions_status, behavior_status].any
      (fun flag => contains "❌" flag || contains "⚠️" flag) then
    "🚨 High Risk: Escalate to manual review."
  else
    "✅ Low Risk: Auto-approve onboarding."

/-- Modelled from the spec: a `RiskStatus` is a severity plus a
human-readable message (spec §3 data model); the code has no such type
and encodes both in one string. -/
structure RiskStatus where
  severity : Severity
  message : String

/-- Modelled from the spec: the emoji marker the code uses to encode a
severity at the front of a status string. -/
def marker : Severity → String
  | .OK => "✅ "
  | .WARNING => "⚠️ "
  | .REJECT => "❌ "

/-- Modelled from the spec: rendering a `RiskStatus` to the status string
the code would produce for it. -/
def render (r : RiskStatus) : String :=
  marker r.severity ++ r.message

/-- Modelled from the spec: the severity a status string encodes, read
from its leading marker.  The spec labels "High Risk: Escalate to manual
review." (rendered by the code with a leading "🚨") REJECT-level and
"Low Risk: Auto-approve onboarding." OK-level. -/
def severityOfStatus (s : String) : Severity :=
  if "❌".data <+: s.data ∨ "🚨".data <+: s.data then .REJECT
  else if "⚠️".data <+: s.data then .WARNING
  else .OK

/-- A message is clean when it does not itself contain one of the two
markers `combine_risk_signals` scans for. -/
def cleanMessage (m : String) : Prop :=
  ¬ ("❌".data <:+: m.data) ∧ ¬ ("⚠️".data <:+: m.data)

instance instDecCleanMessage (m : String) : Decidable (cleanMessage m) :=
  inferInstanceAs (Decidable (¬ ("❌".data <:+: m.data) ∧ ¬ ("⚠️".data <:+: m.data)))

/-- Whether a severity makes `combine_risk_signals` escalate: the marker
of a WARNING or REJECT status is one of the substrings it scans for. -/
def Severity.flagged : Severity → Bool
  | .OK => false
  | .WARNING => true
  | .REJECT => true

/-- The Bool substring test agrees with list-infix on the character data. -/
theorem contains_iff (n h : String) : contains n h = true ↔ n.data <:+: h.data :=
  decide_eq_true_iff

/-- A substring of a mapped list is the image of a substring. -/
theorem substr_map_iff (f : Char → Char) (t l : List Char) :
    t <:+: l.map f ↔ ∃ u : List Char, u <:+: l ∧ u.map f = t := by
  constructor
  · rintro ⟨p, q, hpq⟩
    obtain ⟨l₁, l₂, hl, h₁, h₂⟩ := List.map_eq_append_iff.mp hpq.symm
    obtain ⟨l₁₁, l₁₂, hl₁, h₁₁, h₁₂⟩ := List.map_eq_append_iff.mp h₁
    exact ⟨l₁₂, ⟨l₁₁, l₂, by rw [hl, hl₁, List.append_assoc]⟩, h₁₂⟩
  · rintro ⟨u, ⟨p, q, hpq⟩, rfl⟩
    exact ⟨p.map f, q.map f, by rw [← List.map_append, ← List.map_append, hpq]⟩

/-- A nonempty substring of a cons whose head differs from the first cell
is a substring of the tail. -/
theorem substr_cons_of_head_ne {x a : Char} {t l : List Char}
    (h : (x :: t) <:+: a :: l) (hne : x ≠ a) : (x :: t) <:+: l := by
  rcases List.infix_cons_iff.mp h with hp | h'
  · rcases List.prefix_cons_iff.mp hp with h0 | ⟨u, hu, _⟩
    · exact absurd h0 (by simp)
    · injection hu with h1 _
      exact absurd h1 hne
  · exact h'

/-- An OK-rendered status with a clean message carries no escalation marker. -/
theorem no_marks_ok_render {m : String} (h1 : ¬ ("❌".data <:+: m.data))
    (h2 : ¬ ("⚠️".data <:+: m.data)) :
    (contains "❌" ("✅ " ++ m) || contains "⚠️" ("✅ " ++ m)) = false := by
  rw [Bool.or_eq_false_iff]
  constructor <;> rw [contains, decide_eq_false_iff_not]
  · intro hsub
    have hsub' : ('❌' :: []) <:+: ('✅' :: ' ' :: m.data) := hsub
    exact h1 (substr_cons_of_head_ne (substr_cons_of_head_ne hsub' (by decide)) (by decide))
  · intro hsub
    have hsub' : ('⚠' :: '️' :: []) <:+: ('✅' :: ' ' :: m.data) := hsub
    exact h2 (substr_cons_of_head_ne (substr_cons_of_head_ne hsub' (by decide)) (by decide))

/-- A WARNING-rendered status contains the "⚠️" marker. -/
theorem flag_warn_render (m : String) : contains "⚠️" ("⚠️ " ++ m) = true := by
  rw [contains, decide_eq_true_iff]
  exact ⟨[], ' ' :: m.data, rfl⟩

/-- A REJECT-rendered status contains the "❌" marker. -/
theorem flag_rej_render (m : String) : contains "❌" ("❌ " ++ m) = true := by
  rw [contains, decide_eq_true_iff]
  exact ⟨[], ' ' :: m.data, rfl⟩

/-- The escalation test of `combine_risk_signals` on a rendered status with a
clean message is exactly the status's severity being non-OK. -/
theorem flag_render_eq (r : RiskStatus) (h : cleanMessage r.message) :
    (contains "❌" (render r) || contains "⚠️" (render r)) = r.severity.flagged := by
  obtain ⟨s, m⟩ := r
  obtain ⟨h1, h2⟩ := h
  cases s
  · exact no_marks_ok_render h1 h2
  · rw [render, marker, flag_warn_render, Bool.or_true]; rfl
  · rw [render, marker, flag_rej_render, Bool.true_or]; rfl

/-- `combine_risk_signals` escalates when its first argument is flagged. -/
theorem combine_high₁ (u v w : String)
    (h : (contains "❌" u || contains "⚠️" u) = true) :
    combine_risk_signals u v w = "🚨 High Risk: Escalate to manual review." := by
  unfold combine_risk_signals
  simp [List.any_cons, h]

/-- `combine_risk_signals` escalates when its second argument is flagged. -/
theorem combine_high₂ (u v w : String)
    (h : (contains "❌" v || contains "⚠️" v) = true) :
    combine_risk_signals u v w = "🚨 High Risk: Escalate to manual review." := by
  unfold combine_risk_signals
  simp [List.any_cons, h]

/-- `combine_risk_signals` escalates when its third argument is flagged. -/
theorem combine_high₃ (u v w : String)
    (h : (contains "❌" w || contains "⚠️" w) = true) :
    combine_risk_signals u v w = "🚨 High Risk: Escalate to manual review." := by
  unfold combine_risk_signals
  simp [List.any_cons, h]

/-- `combine_risk_signals` approves when no argument is flagged. -/
theorem combine_low (u v w : String)
    (hu : (contains "❌" u || contains "⚠️" u) = false)
    (hv : (contains "❌" v || contains "⚠️" v) = false)
    (hw : (contains "❌" w || contains "⚠️" w) = false) :
    combine_risk_signals u v w = "✅ Low Risk: Auto-approve onboarding." := by
  unfold combine_risk_signals
  simp [List.any_cons, List.any_nil, hu, hv, hw]

/-- `combine_risk_signals` on rendered clean statuses approves exactly when
all three severities are OK, and otherwise escalates. -/
theorem combine_render (a b c : RiskStatus)
    (ha : cleanMessage a.message) (hb : cleanMessage b.message)
    (hc : cleanMessage c.message) :
    combine_risk_signals (render a) (render b) (render c) =
      if a.severity = Severity.OK ∧ b.severity = Severity.OK ∧ c.severity = Severity.OK then
        "✅ Low Risk: Auto-approve onboarding."
      else
        "🚨 High Risk: Escalate to manual review." := by
  have fa := flag_render_eq a ha
  have fb := flag_render_eq b hb
  have fc := flag_render_eq c hc
  obtain ⟨sa, ma⟩ := a
  obtain ⟨sb, mb⟩ := b
  obtain ⟨sc, mc⟩ := c
  unfold combine_risk_signals
  simp only [List.any_cons, List.any_nil, Bool.or_false] at *
  rw [fa, fb, fc]
  cases sa <;> cases sb <;> cases sc <;> simp [Severity.flagged]

/-- Every severity rank is at most the REJECT rank. -/
theorem rank_le_two (s : Severity) : s.rank ≤ 2 := by
  cases s <;> simp [Severity.rank]

/-- A nonempty list whose head differs from the first cell of a cons is
not one of its initial segments. -/
theorem pre_head_ne {x a : Char} {t l : List Char} (hne : x ≠ a) :
    ¬ ((x :: t) <+: a :: l) := by
  intro hp
  rcases List.prefix_cons_iff.mp hp with h0 | ⟨u, hu, _⟩
  · exact absurd h0 (by simp)
  · injection hu with h1 _
    exact absurd h1 hne

/-- An OK-rendered status string decodes to severity OK whatever its message. -/
theorem sev_ok_render (m : String) : severityOfStatus ("✅ " ++ m) = Severity.OK := by
  have h1 : ¬ ("❌".data <+: ("✅ " ++ m).data ∨ "🚨".data <+: ("✅ " ++ m).data) := by
    rintro (h | h)
    · exact pre_head_ne (by decide) h
    · exact pre_head_ne (by decide) h
  have h2 : ¬ ("⚠️".data <+: ("✅ " ++ m).data) := fun h => pre_head_ne (by decide) h
  unfold severityOfStatus
  rw [if_neg h1, if_neg h2]

/-- A REJECT-rendered status string decodes to severity REJECT whatever its
message. -/
theorem sev_rej_render (m : String) : severityOfStatus ("❌ " ++ m) = Severity.REJECT := by
  unfold severityOfStatus
  rw [if_pos (Or.inl ⟨' ' :: m.data, rfl⟩)]

/-- A status of WARNING severity carries the "⚠️" marker the combiner scans
for, whatever its message. -/
theorem flag_render_warn (r : RiskStatus) (h : r.severity = Severity.WARNING) :
    (contains "❌" (render r) || contains "⚠️" (render r)) = true := by
  simp only [render, h, marker]
  rw [flag_warn_render, Bool.or_true]

/-- A status of REJECT severity carries the "❌" marker the combiner scans
for, whatever its message. -/
theorem flag_render_rej (r : RiskStatus) (h : r.severity = Severity.REJECT) :
    (contains "❌" (render r) || contains "⚠️" (render r)) = true := by
  simp only [render, h, marker]
  rw [flag_rej_render, Bool.true_or]

/-- The code's forgery test succeeds exactly when some case-variant of
"forged" occurs in the input: a substring mapping to "forged" under ASCII
lowercasing. -/
theorem forged_match_iff (s : String) :
    contains "forged" (lower s) = true ↔
      ∃ u : List Char, u <:+: s.data ∧ u.map pyLower = "forged".data := by
  rw [contains_iff]
  exact substr_map_iff pyLower "forged".data s.data

/-- The code's behavioral test succeeds exactly when some case-variant of
"bot-like" or "unusual" occurs in the input. -/
theorem behavior_match_iff (s : String) :
    (contains "bot-like" (lower s) || contains "unusual" (lower s)) = true ↔
      ∃ u : List Char, u <:+: s.data ∧
        (u.map pyLower = "bot-like".data ∨ u.map pyLower = "unusual".data) := by
  rw [Bool.or_eq_true, contains_iff, contains_iff]
  constructor
  · rintro (h | h)
    · obtain ⟨u, hu, hm⟩ := (substr_map_iff pyLower _ s.data).mp h
      exact ⟨u, hu, Or.inl hm⟩
    · obtain ⟨u, hu, hm⟩ := (substr_map_iff pyLower _ s.data).mp h
      exact ⟨u, hu, Or.inr hm⟩
  · rintro ⟨u, hu, hm | hm⟩
    · exact Or.inl ((substr_map_iff pyLower _ s.data).mpr ⟨u, hu, hm⟩)
    · exact Or.inr ((substr_map_iff pyLower _ s.data).mpr ⟨u, hu, hm⟩)

/-- C3: `validate_id_document` returns REJECT with "Document invalid:
suspected forgery." exactly on strings containing a case-variant of
"forged" (any string, the empty one included, is a legal input), and OK
with "Document valid." on all others. -/
theorem c3_validate_forgery (s : String) :
    (validate_id_document s = "❌ Document invalid: suspected forgery." ↔
      ∃ u : List Char, u <:+: s.data ∧ u.map pyLower = "forged".data) ∧
    (validate_id_document s = "✅ Document valid." ↔
      ¬ ∃ u : List Char, u <:+: s.data ∧ u.map pyLower = "forged".data) ∧
    severityOfStatus "❌ Document invalid: suspected forgery." = Severity.REJECT ∧
    severityOfStatus "✅ Document valid." = Severity.OK := by
  rcases Bool.eq_false_or_eq_true (contains "forged" (lower s)) with h | h
  · have hv : validate_id_document s = "❌ Document invalid: suspected forgery." := by
      unfold validate_id_document
      rw [h]
      simp
    have hex := (forged_match_iff s).mp h
    exact ⟨iff_of_true hv hex, iff_of_false (by rw [hv]; decide) (fun hn => hn hex),
      by decide, by decide⟩
  · have hv : validate_id_document s = "✅ Document valid." := by
      unfold validate_id_document
      rw [h]
      simp
    have hnex : ¬ ∃ u : List Char, u <:+: s.data ∧ u.map pyLower = "forged".data := by
      intro hex
      rw [(forged_match_iff s).mpr hex] at h
      exact absurd h (by decide)
    exact ⟨iff_of_false (by rw [hv]; decide) hnex, iff_of_true hv hnex, by decide, by decide⟩

/-- C3 witness: a concrete FORGED document is rejected, a concrete valid
one accepted. -/
theorem c3_witness :
    validate_id_document "FORGED papers" = "❌ Document invalid: suspected forgery." ∧
    validate_id_document "Valid passport" = "✅ Document valid." := by
  constructor
  · exact (c3_validate_forgery "FORGED papers").1.mpr ⟨"FORGED".data, by decide, by decide⟩
  · refine (c3_validate_forgery "Valid passport").2.1.mpr ?_
    intro hex
    exact absurd ((forged_match_iff "Valid passport").mpr hex) (by decide)

/-- C4: `screen_against_sanctions` is an exact, case-sensitive watchlist
membership test: members are flagged with a REJECT status, every other
string (case variants included) is cleared with an OK status. -/
theorem c4_screen_exact (s : String) :
    (s = "John Doe" ∨ s = "Ali Khan" →
      screen_against_sanctions s = "❌ " ++ s ++ " flagged on sanctions list.") ∧
    (s ≠ "John Doe" ∧ s ≠ "Ali Khan" →
      screen_against_sanctions s = "✅ " ++ s ++ " is clear.") ∧
    severityOfStatus ("❌ " ++ s ++ " flagged on sanctions list.") = Severity.REJECT ∧
    severityOfStatus ("✅ " ++ s ++ " is clear.") = Severity.OK := by
  refine ⟨?_, ?_, sev_rej_render (s ++ " flagged on sanctions list."),
    sev_ok_render (s ++ " is clear.")⟩
  · rintro (rfl | rfl) <;> decide
  · rintro ⟨h1, h2⟩
    unfold screen_against_sanctions
    rw [if_neg (by simp [watchlist, h1, h2])]

/-- C4 witness: "John Doe" is flagged, the case variant "john doe" is clear. -/
theorem c4_witness :
    screen_against_sanctions "John Doe" = "❌ " ++ "John Doe" ++ " flagged on sanctions list." ∧
    screen_against_sanctions "john doe" = "✅ " ++ "john doe" ++ " is clear." :=
  ⟨(c4_screen_exact "John Doe").1 (Or.inl rfl), (c4_screen_exact "john doe").2.1 (by decide)⟩

/-- C5: `assess_behavioral_risk` returns WARNING with "Behavioral risk
detected." exactly on strings containing a case-variant of "bot-like" or
"unusual", and OK with "Behavior appears normal." on all others. -/
theorem c5_behavior_keywords (s : String) :
    (assess_behavioral_risk s = "⚠️ Behavioral risk detected." ↔
      ∃ u : List Char, u <:+: s.data ∧
        (u.map pyLower = "bot-like".data ∨ u.map pyLower = "unusual".data)) ∧
    (assess_behavioral_risk s = "✅ Behavior appears normal." ↔
      ¬ ∃ u : List Char, u <:+: s.data ∧
        (u.map pyLower = "bot-like".data ∨ u.map pyLower = "unusual".data)) ∧
    severityOfStatus "⚠️ Behavioral risk detected." = Severity.WARNING ∧
    severityOfStatus "✅ Behavior appears normal." = Severity.OK := by
  rcases Bool.eq_false_or_eq_true
    (contains "bot-like" (lower s) || contains "unusual" (lower s)) with h | h
  · have hv : assess_behavioral_risk s = "⚠️ Behavioral risk detected." := by
      unfold assess_behavioral_risk
      rw [h]
      simp
    have hex := (behavior_match_iff s).mp h
    exact ⟨iff_of_true hv hex, iff_of_false (by rw [hv]; decide) (fun hn => hn hex),
      by decide, by decide⟩
  · have hv : assess_behavioral_risk s = "✅ Behavior appears normal." := by
      unfold assess_behavioral_risk
      rw [h]
      simp
    have hnex : ¬ ∃ u : List Char, u <:+: s.data ∧
        (u.map pyLower = "bot-like".data ∨ u.map pyLower = "unusual".data) := by
      intro hex
      rw [(behavior_match_iff s).mpr hex] at h
      exact absurd h (by decide)
    exact ⟨iff_of_false (by rw [hv]; decide) hnex, iff_of_true hv hnex, by decide, by decide⟩

/-- C5 witness: a concrete UNUSUAL pattern warns, a normal one does not,
and "BOT-LIKE" (with U+212A KELVIN SIGN, which Python lowercases to
'k') warns as the program does. -/
theorem c5_witness :
    assess_behavioral_risk "UNUSUAL login time" = "⚠️ Behavioral risk detected." ∧
    assess_behavioral_risk "Normal typing" = "✅ Behavior appears normal." ∧
    assess_behavioral_risk "BOT-LIKE" = "⚠️ Behavioral risk detected." := by
  refine ⟨?_, ?_, ?_⟩
  · exact (c5_behavior_keywords "UNUSUAL login time").1.mpr
      ⟨"UNUSUAL".data, by decide, Or.inr (by decide)⟩
  · refine (c5_behavior_keywords "Normal typing").2.1.mpr ?_
    intro hex
    exact absurd ((behavior_match_iff "Normal typing").mpr hex) (by decide)
  · exact (c5_behavior_keywords "BOT-LIKE").1.mpr
      ⟨"BOT-LIKE".data, by decide, Or.inl (by decide)⟩

/-- C1 counterexample: the claim fails as stated over all status strings.
Three statuses all of OK severity (the sanctions clearance for a customer
name that happens to contain "❌") are combined to the high-risk REJECT
message instead of the low-risk OK message. -/
theorem c1_counterexample :
    severityOfStatus "✅ Document valid." = Severity.OK ∧
    severityOfStatus (screen_against_sanctions "Ali ❌hmed") = Severity.OK ∧
    severityOfStatus "✅ Behavior appears normal." = Severity.OK ∧
    combine_risk_signals "✅ Document valid." (screen_against_sanctions "Ali ❌hmed")
        "✅ Behavior appears normal."
      ≠ "✅ Low Risk: Auto-approve onboarding." ∧
    combine_risk_signals "✅ Document valid." (screen_against_sanctions "Ali ❌hmed")
        "✅ Behavior appears normal."
      = "🚨 High Risk: Escalate to manual review." := by
  decide

/-- C1 (amended): over statuses rendered with their severity marker whose
message text contains no "❌"/"⚠️" marker itself, `combine_risk_signals`
returns the REJECT-level high-risk message if any input has severity
WARNING or REJECT, and otherwise the OK-level low-risk message. -/
theorem c1_combine_by_severity (a b c : RiskStatus)
    (ha : cleanMessage a.message) (hb : cleanMessage b.message)
    (hc : cleanMessage c.message) :
    combine_risk_signals (render a) (render b) (render c) =
      if a.severity = Severity.OK ∧ b.severity = Severity.OK ∧ c.severity = Severity.OK then
        "✅ Low Risk: Auto-approve onboarding."
      else
        "🚨 High Risk: Escalate to manual review." :=
  combine_render a b c ha hb hc

/-- C1 witness: three OK statuses with the plugin's own messages combine to
the low-risk message, and a REJECT one forces the high-risk message. -/
theorem c1_witness :
    combine_risk_signals (render ⟨Severity.OK, "Document valid."⟩)
        (render ⟨Severity.OK, "Jane Smith is clear."⟩)
        (render ⟨Severity.OK, "Behavior appears normal."⟩)
      = "✅ Low Risk: Auto-approve onboarding." ∧
    combine_risk_signals (render ⟨Severity.REJECT, "Document invalid: suspected forgery."⟩)
        (render ⟨Severity.OK, "Jane Smith is clear."⟩)
        (render ⟨Severity.WARNING, "Behavioral risk detected."⟩)
      = "🚨 High Risk: Escalate to manual review." := by
  constructor
  · rw [c1_combine_by_severity _ _ _ (by decide) (by decide) (by decide)]
    decide
  · rw [c1_combine_by_severity _ _ _ (by decide) (by decide) (by decide)]
    decide

/-- C2 counterexample: the result severity is not the maximum of the input
severities.  Inputs of severities OK, OK, WARNING have maximum severity
WARNING, yet the combined result is the REJECT-level high-risk message. -/
theorem c2_counterexample :
    severityOfStatus "✅ Document valid." = Severity.OK ∧
    severityOfStatus "✅ Jane Smith is clear." = Severity.OK ∧
    severityOfStatus "⚠️ Behavioral risk detected." = Severity.WARNING ∧
    Severity.max (Severity.max (severityOfStatus "✅ Document valid.")
        (severityOfStatus "✅ Jane Smith is clear."))
        (severityOfStatus "⚠️ Behavioral risk detected.") = Severity.WARNING ∧
    severityOfStatus (combine_risk_signals "✅ Document valid." "✅ Jane Smith is clear."
        "⚠️ Behavioral risk detected.") = Severity.REJECT ∧
    Severity.REJECT ≠ Severity.WARNING := by
  decide

/-- C2 (amended): for marker-rendered statuses with clean messages the
result severity collapses any non-OK input to REJECT: it is OK when the
maximum input severity is OK and REJECT otherwise (so a WARNING maximum
yields REJECT, not WARNING). -/
theorem c2_combine_severity_collapse (a b c : RiskStatus)
    (ha : cleanMessage a.message) (hb : cleanMessage b.message)
    (hc : cleanMessage c.message) :
    severityOfStatus (combine_risk_signals (render a) (render b) (render c)) =
      if Severity.max (Severity.max a.severity b.severity) c.severity = Severity.OK then
        Severity.OK
      else
        Severity.REJECT := by
  rw [combine_render a b c ha hb hc]
  cases hA : a.severity <;> cases hB : b.severity <;> cases hC : c.severity <;> decide

/-- C2 witness: concrete statuses of severities OK, OK, WARNING yield a
REJECT-severity combined result. -/
theorem c2_witness :
    severityOfStatus (combine_risk_signals (render ⟨Severity.OK, "Document valid."⟩)
        (render ⟨Severity.OK, "Jane Smith is clear."⟩)
        (render ⟨Severity.WARNING, "Behavioral risk detected."⟩)) = Severity.REJECT := by
  rw [c2_combine_severity_collapse _ _ _ (by decide) (by decide) (by decide)]
  decide

/-- C6: `combine_risk_signals` is monotone in each argument position:
replacing an OK input with a WARNING or REJECT one never decreases the
severity of the output (whatever the other two rendered statuses are). -/
theorem c6_combine_monotone (x y : RiskStatus)
    (_hx : x.severity = Severity.OK)
    (hy : y.severity = Severity.WARNING ∨ y.severity = Severity.REJECT) :
    ∀ b c : RiskStatus,
      (severityOfStatus (combine_risk_signals (render x) (render b) (render c))).rank ≤
        (severityOfStatus (combine_risk_signals (render y) (render b) (render c))).rank ∧
      (severityOfStatus (combine_risk_signals (render b) (render x) (render c))).rank ≤
        (severityOfStatus (combine_risk_signals (render b) (render y) (render c))).rank ∧
      (severityOfStatus (combine_risk_signals (render b) (render c) (render x))).rank ≤
        (severityOfStatus (combine_risk_signals (render b) (render c) (render y))).rank := by
  intro b c
  have hflag : (contains "❌" (render y) || contains "⚠️" (render y)) = true := by
    rcases hy with h | h
    · exact flag_render_warn y h
    · exact flag_render_rej y h
  refine ⟨?_, ?_, ?_⟩
  · rw [combine_high₁ _ _ _ hflag]
    exact le_trans (rank_le_two _) (by decide)
  · rw [combine_high₂ _ _ _ hflag]
    exact le_trans (rank_le_two _) (by decide)
  · rw [combine_high₃ _ _ _ hflag]
    exact le_trans (rank_le_two _) (by decide)

/-- C6 witness: upgrading a concrete OK document status to WARNING never
decreases the combined severity, in any argument position. -/
theorem c6_witness :
    (severityOfStatus (combine_risk_signals (render ⟨Severity.OK, "Document valid."⟩)
        (render ⟨Severity.OK, "Jane Smith is clear."⟩)
        (render ⟨Severity.OK, "Behavior appears normal."⟩))).rank ≤
      (severityOfStatus (combine_risk_signals (render ⟨Severity.WARNING, "Behavioral risk detected."⟩)
        (render ⟨Severity.OK, "Jane Smith is clear."⟩)
        (render ⟨Severity.OK, "Behavior appears normal."⟩))).rank ∧
    (severityOfStatus (combine_risk_signals (render ⟨Severity.OK, "Jane Smith is clear."⟩)
        (render ⟨Severity.OK, "Document valid."⟩)
        (render ⟨Severity.OK, "Behavior appears normal."⟩))).rank ≤
      (severityOfStatus (combine_risk_signals (render ⟨Severity.OK, "Jane Smith is clear."⟩)
        (render ⟨Severity.WARNING, "Behavioral risk detected."⟩)
        (render ⟨Severity.OK, "Behavior appears normal."⟩))).rank ∧
    (severityOfStatus (combine_risk_signals (render ⟨Severity.OK, "Jane Smith is clear."⟩)
        (render ⟨Severity.OK, "Behavior appears normal."⟩)
        (render ⟨Severity.OK, "Document valid."⟩))).rank ≤
      (severityOfStatus (combine_risk_signals (render ⟨Severity.OK, "Jane Smith is clear."⟩)
        (render ⟨Severity.OK, "Behavior appears normal."⟩)
        (render ⟨Severity.WARNING, "Behavioral risk detected."⟩))).rank :=
  c6_combine_monotone ⟨Severity.OK, "Document valid."⟩
    ⟨Severity.WARNING, "Behavioral risk detected."⟩ rfl (Or.inl rfl)
    ⟨Severity.OK, "Jane Smith is clear."⟩ ⟨Severity.OK, "Behavior appears normal."⟩

/-- C7: the two end-to-end scenarios of the driver.  Forged document,
watchlisted name and bot-like behavior give REJECT, REJECT, WARNING and a
combined REJECT-level escalation; valid passport, clear name and normal
behavior give three OKs and a combined OK-level approval. -/
theorem c7_end_to_end :
    validate_id_document "Forged national ID" = "❌ Document invalid: suspected forgery." ∧
    severityOfStatus (validate_id_document "Forged national ID") = Severity.REJECT ∧
    screen_against_sanctions "John Doe" = "❌ John Doe flagged on sanctions list." ∧
    severityOfStatus (screen_against_sanctions "John Doe") = Severity.REJECT ∧
    assess_behavioral_risk "Bot-like input pattern detected" = "⚠️ Behavioral risk detected." ∧
    severityOfStatus (assess_behavioral_risk "Bot-like input pattern detected")
      = Severity.WARNING ∧
    combine_risk_signals (validate_id_document "Forged national ID")
        (screen_against_sanctions "John Doe")
        (assess_behavioral_risk "Bot-like input pattern detected")
      = "🚨 High Risk: Escalate to manual review." ∧
    validate_id_document "Valid passport" = "✅ Document valid." ∧
    screen_against_sanctions "Jane Smith" = "✅ Jane Smith is clear." ∧
    assess_behavioral_risk "Normal typing speed" = "✅ Behavior appears normal." ∧
    combine_risk_signals (validate_id_document "Valid passport")
        (screen_against_sanctions "Jane Smith")
        (assess_behavioral_risk "Normal typing speed")
      = "✅ Low Risk: Auto-approve onboarding." := by
  decide

/-- C8: the four operations are deterministic total functions: equal inputs
give equal outputs, and every input produces one of the operation's two
defined status strings (no failure path exists). -/
theorem c8_total_deterministic :
    (∀ s t : String, s = t →
      validate_id_document s = validate_id_document t ∧
      screen_against_sanctions s = screen_against_sanctions t ∧
      assess_behavioral_risk s = assess_behavioral_risk t) ∧
    (∀ a b c a' b' c' : String, a = a' → b = b' → c = c' →
      combine_risk_signals a b c = combine_risk_signals a' b' c') ∧
    (∀ s : String, validate_id_document s = "❌ Document invalid: suspected forgery." ∨
      validate_id_document s = "✅ Document valid.") ∧
    (∀ s : String, screen_against_sanctions s = "❌ " ++ s ++ " flagged on sanctions list." ∨
      screen_against_sanctions s = "✅ " ++ s ++ " is clear.") ∧
    (∀ s : String, assess_behavioral_risk s = "⚠️ Behavioral risk detected." ∨
      assess_behavioral_risk s = "✅ Behavior appears normal.") ∧
    (∀ a b c : String,
      combine_risk_signals a b c = "🚨 High Risk: Escalate to manual review." ∨
      combine_risk_signals a b c = "✅ Low Risk: Auto-approve onboarding.") := by
  refine ⟨?_, ?_, ?_, ?_, ?_, ?_⟩
  · rintro s t rfl
    exact ⟨rfl, rfl, rfl⟩
  · rintro a b c a' b' c' rfl rfl rfl
    rfl
  · intro s
    unfold validate_id_document
    split
    · exact Or.inl rfl
    · exact Or.inr rfl
  · intro s
    unfold screen_against_sanctions
    split
    · exact Or.inl rfl
    · exact Or.inr rfl
  · intro s
    unfold assess_behavioral_risk
    split
    · exact Or.inl rfl
    · exact Or.inr rfl
  · intro a b c
    unfold combine_risk_signals
    split
    · exact Or.inl rfl
    · exact Or.inr rfl

/-- C8 witness: determinism and totality at concrete inputs. -/
theorem c8_witness :
    validate_id_document "abc" = validate_id_document "abc" ∧
    combine_risk_signals "a" "b" "c" = combine_risk_signals "a" "b" "c" ∧
    (validate_id_document "abc" = "❌ Document invalid: suspected forgery." ∨
      validate_id_document "abc" = "✅ Document valid.") :=
  ⟨(c8_total_deterministic.1 "abc" "abc" rfl).1,
    c8_total_deterministic.2.1 "a" "b" "c" "a" "b" "c" rfl rfl rfl,
    c8_total_deterministic.2.2.1 "abc"⟩

/-- C9: `combine_risk_signals` keys on "❌"/"⚠️" substring occurrence, so
the full name "❌", which is not on the watchlist and is cleared by
`screen_against_sanctions` with its OK-level "is clear." message, still
makes the combination with two OK statuses escalate to high risk. -/
theorem c9_marker_injection :
    ¬ ("❌" ∈ watchlist) ∧
    screen_against_sanctions "❌" = "✅ ❌ is clear." ∧
    severityOfStatus (screen_against_sanctions "❌") = Severity.OK ∧
    combine_risk_signals "✅ Document valid." (screen_against_sanctions "❌")
        "✅ Behavior appears normal."
      = "🚨 High Risk: Escalate to manual review." := by
  decide

/-- C10: `combine_risk_signals` is symmetric: every permutation of its
three arguments produces the identical output string. -/
theorem c10_combine_symmetric (a b c : String) :
    combine_risk_signals a b c = combine_risk_signals a c b ∧
    combine_risk_signals a b c = combine_risk_signals b a c ∧
    combine_risk_signals a b c = combine_risk_signals b c a ∧
    combine_risk_signals a b c = combine_risk_signals c a b ∧
    combine_risk_signals a b c = combine_risk_signals c b a := by
  unfold combine_risk_signals
  simp only [List.any_cons, List.any_nil, Bool.or_false]
  rcases Bool.eq_false_or_eq_true (contains "❌" a || contains "⚠️" a) with ha | ha <;>
    rcases Bool.eq_false_or_eq_true (contains "❌" b || contains "⚠️" b) with hb | hb <;>
      rcases Bool.eq_false_or_eq_true (contains "❌" c || contains "⚠️" c) with hc | hc <;>
        simp [ha, hb, hc]

end SKDemo
